import Mathlib

/-
  Verification of the KVM SDEI virtualization core
  (arch/arm64/kvm/sdei.c together with asm/kvm_sdei.h and
  uapi/asm/kvm_sdei.h) against its natural-language specification.

  The C code is shallowly embedded: each hypercall handler becomes a pure
  Lean function from the relevant state to a result and an updated state.
  Machine integers (u64/u32/u8) are modelled as Nat, with explicit
  truncation (mod 2^8, wraparound at a u32 decrement) exactly where the C
  narrows or may wrap.  SDEI status codes are negative C longs; hypercall
  results are therefore Int (the guest sees the two's-complement u64).
  Linked lists become Lean lists; a C pointer into a list is modelled by
  the event number of the node it designates (event numbers are unique in
  each list: both creation paths refuse duplicates).  A C NULL-pointer
  dereference or out-of-bounds array access is modelled by an Option
  result, with none standing for the host-internal fault.
-/

namespace KvmSdei

/- ---------------------------------------------------------------------
   Constants, from include/uapi/linux/arm_sdei.h, asm/ptrace.h,
   uapi/asm/kvm_sdei.h and asm/kvm_sdei.h.
   --------------------------------------------------------------------- -/

def SDEI_SUCCESS : Int := 0
def SDEI_NOT_SUPPORTED : Int := -1
def SDEI_INVALID_PARAMETERS : Int := -2
def SDEI_DENIED : Int := -3
def SDEI_PENDING : Int := -5
def SDEI_OUT_OF_RESOURCE : Int := -10

def SDEI_EVENT_REGISTER_RM_ANY : Nat := 0
def SDEI_EVENT_REGISTER_RM_PE : Nat := 1

def SDEI_EVENT_TYPE_PRIVATE : Nat := 0
def SDEI_EVENT_TYPE_SHARED : Nat := 1

def SDEI_EVENT_PRIORITY_NORMAL : Nat := 0
def SDEI_EVENT_PRIORITY_CRITICAL : Nat := 1

def SDEI_EVENT_STATUS_REGISTERED : Nat := 0
def SDEI_EVENT_STATUS_ENABLED : Nat := 1
def SDEI_EVENT_STATUS_RUNNING : Nat := 2

def SDEI_EVENT_INFO_EV_TYPE : Nat := 0
def SDEI_EVENT_INFO_EV_SIGNALED : Nat := 1
def SDEI_EVENT_INFO_EV_PRIORITY : Nat := 2
def SDEI_EVENT_INFO_EV_ROUTING_MODE : Nat := 3
def SDEI_EVENT_INFO_EV_ROUTING_AFF : Nat := 4

def KVM_SDEI_MAX_VCPUS : Nat := 512
def KVM_SDEI_INVALID_NUM : Nat := 0
def KVM_SDEI_DEFAULT_NUM : Nat := 0x40400000

/-- PSTATE bits used when entering the handler (asm/ptrace.h). -/
def PSR_MODE_MASK : Nat := 0x0000000f
def PSR_MODE_EL1h : Nat := 0x00000005
def PSR_MODE32_BIT : Nat := 0x00000010
def PSR_F_BIT : Nat := 0x00000040
def PSR_I_BIT : Nat := 0x00000080
def PSR_A_BIT : Nat := 0x00000100
def PSR_D_BIT : Nat := 0x00000200

/-- C `p & ~m` on an unsigned value: drop the bits of `m` from `p`. -/
def andNot (p m : Nat) : Nat := p - (p &&& m)

/- ---------------------------------------------------------------------
   Data model (uapi/asm/kvm_sdei.h and asm/kvm_sdei.h).
   --------------------------------------------------------------------- -/

/-- struct kvm_sdei_event_state: a defined (catalog) virtual event. -/
structure kvm_sdei_event_state where
  num : Nat
  type : Nat
  signaled : Nat
  priority : Nat
  deriving Repr, DecidableEq

/-- struct kvm_sdei_kvm_event_state: a guest registration record.
    The fixed arrays `entries`/`params` (size KVM_SDEI_MAX_VCPUS) are
    index-to-value functions; the `registered`/`enabled` bitmaps are
    index-to-bit functions (test_bit/set_bit/clear_bit). -/
structure kvm_sdei_kvm_event_state where
  num : Nat
  refcount : Nat
  route_mode : Nat
  route_affinity : Nat
  entries : Nat → Nat
  params : Nat → Nat
  registered : Nat → Bool
  enabled : Nat → Bool

/-- struct kvm_sdei_kvm_event: registration record plus its back
    reference `kse` to the defined event (immutable once created). -/
structure kvm_sdei_kvm_event where
  state : kvm_sdei_kvm_event_state
  kse : kvm_sdei_event_state

/-- struct kvm_sdei_kvm: the per-VM SDEI state (the defined-event list
    and the registration list; the spinlock is not modelled). -/
structure kvm_sdei_kvm where
  events : List kvm_sdei_event_state
  kvm_events : List kvm_sdei_kvm_event

/-- struct kvm_sdei_vcpu_event_state: one queued/in-flight instance. -/
structure kvm_sdei_vcpu_event_state where
  num : Nat
  refcount : Nat
  deriving Repr, DecidableEq

/-- struct kvm_sdei_vcpu_regs: saved x0..x17, PC and PSTATE.  `regs` is
    an 18-slot array; only indices 0..17 are in bounds. -/
structure kvm_sdei_vcpu_regs where
  regs : Nat → Nat
  pc : Nat
  pstate : Nat

/-- struct kvm_sdei_vcpu_state. -/
structure kvm_sdei_vcpu_state where
  masked : Nat
  critical_num : Nat
  normal_num : Nat
  critical_regs : kvm_sdei_vcpu_regs
  normal_regs : kvm_sdei_vcpu_regs

/-- struct kvm_sdei_vcpu.  The running-event pointers `critical_event`
    and `normal_event` designate a node of the corresponding pending
    list by its event number (numbers are unique per list). -/
structure kvm_sdei_vcpu where
  state : kvm_sdei_vcpu_state
  critical_event : Option Nat
  normal_event : Option Nat
  critical_events : List kvm_sdei_vcpu_event_state
  normal_events : List kvm_sdei_vcpu_event_state

/-- The guest-visible register file of a VCPU: general-purpose registers
    (vcpu_get_reg/vcpu_set_reg), PC (vcpu_pc), PSTATE (vcpu_cpsr) and the
    SPSR_EL1 system register written at delivery. -/
structure GuestRegs where
  x : Nat → Nat
  pc : Nat
  pstate : Nat
  spsr_el1 : Nat

/-- struct kvm_vcpu, restricted to what the SDEI code touches.
    `req_sdei` is the KVM_REQ_SDEI request flag set by
    kvm_make_request and consumed by the VCPU run loop. -/
structure kvm_vcpu where
  vcpu_idx : Nat
  regs : GuestRegs
  sdei : kvm_sdei_vcpu
  req_sdei : Bool

/- ---------------------------------------------------------------------
   Helpers shared by the handlers.
   --------------------------------------------------------------------- -/

/-- In-place mutation through a found list node: rewrite the first node
    satisfying `p` with `f` (the C code mutates the node returned by the
    corresponding find). -/
def updateFirst (p : α → Bool) (f : α → α) : List α → List α
  | [] => []
  | a :: t => if p a then f a :: t else a :: updateFirst p f t

/-- kvm_sdei_find_event: lookup in ksdei->events by number. -/
def kvm_sdei_find_event (kvm : kvm_sdei_kvm) (num : Nat) :
    Option kvm_sdei_event_state :=
  kvm.events.find? (fun kse => kse.num == num)

/-- kvm_sdei_find_kvm_event: lookup in ksdei->kvm_events by number. -/
def kvm_sdei_find_kvm_event (kvm : kvm_sdei_kvm) (num : Nat) :
    Option kvm_sdei_kvm_event :=
  kvm.kvm_events.find? (fun kske => kske.state.num == num)

/-- kvm_sdei_is_valid_event_num (asm/kvm_sdei.h): the number must fit in
    32 bits and its namespace-type field, bits 23:22, must equal
    KVM_SDEI_EV_NUM_TYPE_VIRT (1). -/
def kvm_sdei_is_valid_event_num (num : Nat) : Bool :=
  if num >>> 32 != 0 then false
  else (num >>> 22) &&& 3 == 1

/-- kvm_sdei_is_registered (test_bit on the registered bitmap). -/
def kvm_sdei_is_registered (kske : kvm_sdei_kvm_event) (index : Nat) : Bool :=
  kske.state.registered index

/-- kvm_sdei_is_enabled (test_bit on the enabled bitmap). -/
def kvm_sdei_is_enabled (kske : kvm_sdei_kvm_event) (index : Nat) : Bool :=
  kske.state.enabled index

/-- kvm_sdei_empty_registered: bitmap_empty over KVM_SDEI_MAX_VCPUS bits. -/
def kvm_sdei_empty_registered (kske : kvm_sdei_kvm_event) : Bool :=
  (List.range KVM_SDEI_MAX_VCPUS).all (fun i => !(kske.state.registered i))

/-- The per-index slot used by a registration: the VCPU index for a
    private event, 0 for a shared one. -/
def eventIndex (type vcpu_idx : Nat) : Nat :=
  if type == SDEI_EVENT_TYPE_PRIVATE then vcpu_idx else 0

/- ---------------------------------------------------------------------
   Hypercall handlers (arch/arm64/kvm/sdei.c).  Arguments arrive in the
   SMCCC argument registers x1..x5; they are passed explicitly here.
   The ksdei/vsdei NULL sanity checks are satisfied in every state this
   model represents (the structures exist by construction).
   --------------------------------------------------------------------- -/

/-- kvm_sdei_hypercall_register (sdei.c lines 117-207).  Note line 192:
    on the entry-creation path the source stores `route_affinity` into
    the u8 `route_mode` field (truncated mod 256). -/
def kvm_sdei_hypercall_register (kvm : kvm_sdei_kvm) (vcpu_idx : Nat)
    (event_num event_entry event_param route_mode route_affinity : Nat) :
    Int × kvm_sdei_kvm :=
  if !kvm_sdei_is_valid_event_num event_num then
    (SDEI_INVALID_PARAMETERS, kvm)
  else if !(route_mode == SDEI_EVENT_REGISTER_RM_ANY ||
            route_mode == SDEI_EVENT_REGISTER_RM_PE) then
    (SDEI_INVALID_PARAMETERS, kvm)
  else
    match kvm_sdei_find_kvm_event kvm event_num with
    | some kske =>
      let index := eventIndex kske.kse.type vcpu_idx
      if kvm_sdei_is_registered kske index then
        (SDEI_DENIED, kvm)
      else
        (SDEI_SUCCESS,
         { kvm with kvm_events :=
             (updateFirst (fun e => e.state.num == event_num)
               (fun e =>
                 { e with state :=
                   { e.state with
                     route_mode := route_mode % 256,
                     route_affinity := route_affinity,
                     entries := fun j => if j == index then event_entry
                                         else e.state.entries j,
                     params := fun j => if j == index then event_param
                                        else e.state.params j,
                     registered := fun j => j == index || e.state.registered j } })
               kvm.kvm_events) })
    | none =>
      match kvm_sdei_find_event kvm event_num with
      | none => (SDEI_INVALID_PARAMETERS, kvm)
      | some kse =>
        -- kzalloc is assumed to succeed (SDEI_OUT_OF_RESOURCE not modelled)
        let index := eventIndex kse.type vcpu_idx
        let kske : kvm_sdei_kvm_event :=
          { state :=
            { num := event_num,
              refcount := 0,
              -- source line 192: route_mode is assigned route_affinity
              route_mode := route_affinity % 256,
              route_affinity := route_affinity,
              entries := fun j => if j == index then event_entry else 0,
              params := fun j => if j == index then event_param else 0,
              registered := fun j => j == index,
              enabled := fun _ => false },
            kse := kse }
        (SDEI_SUCCESS, { kvm with kvm_events := kvm.kvm_events ++ [kske] })

/-- kvm_sdei_hypercall_enable (sdei.c lines 209-271), shared by the
    ENABLE (enable = true) and DISABLE (enable = false) hypercalls. -/
def kvm_sdei_hypercall_enable (kvm : kvm_sdei_kvm) (vcpu_idx : Nat)
    (event_num : Nat) (enable : Bool) : Int × kvm_sdei_kvm :=
  if !kvm_sdei_is_valid_event_num event_num then
    (SDEI_INVALID_PARAMETERS, kvm)
  else
    match kvm_sdei_find_kvm_event kvm event_num with
    | none => (SDEI_INVALID_PARAMETERS, kvm)
    | some kske =>
      if kske.state.refcount != 0 then
        (SDEI_PENDING, kvm)
      else
        let index := eventIndex kske.kse.type vcpu_idx
        if !kvm_sdei_is_registered kske index then
          (SDEI_DENIED, kvm)
        else if enable == kvm_sdei_is_enabled kske index then
          (SDEI_DENIED, kvm)
        else
          (SDEI_SUCCESS,
           { kvm with kvm_events :=
               (updateFirst (fun e => e.state.num == event_num)
                 (fun e =>
                   { e with state :=
                     { e.state with
                       enabled := fun j =>
                         if j == index then enable else e.state.enabled j } })
                 kvm.kvm_events) })

/-- kvm_sdei_hypercall_unregister (sdei.c lines 388-445).  When the
    refcount is non-zero the handler returns SDEI_PENDING before any of
    the bitmap-clearing statements run. -/
def kvm_sdei_hypercall_unregister (kvm : kvm_sdei_kvm) (vcpu_idx : Nat)
    (event_num : Nat) : Int × kvm_sdei_kvm :=
  if !kvm_sdei_is_valid_event_num event_num then
    (SDEI_INVALID_PARAMETERS, kvm)
  else
    match kvm_sdei_find_kvm_event kvm event_num with
    | none => (SDEI_INVALID_PARAMETERS, kvm)
    | some kske =>
      if kske.state.refcount != 0 then
        (SDEI_PENDING, kvm)
      else
        let index := eventIndex kske.kse.type vcpu_idx
        if !kvm_sdei_is_registered kske index then
          (SDEI_DENIED, kvm)
        else
          -- the event is disabled when it is unregistered
          let cleared : kvm_sdei_kvm_event :=
            { kske with state :=
              { kske.state with
                enabled := fun j => if j == index then false
                                    else kske.state.enabled j,
                registered := fun j => if j == index then false
                                       else kske.state.registered j } }
          if kvm_sdei_empty_registered cleared then
            (SDEI_SUCCESS,
             { kvm with kvm_events :=
                 kvm.kvm_events.eraseP (fun e => e.state.num == event_num) })
          else
            (SDEI_SUCCESS,
             { kvm with kvm_events :=
                 (updateFirst (fun e => e.state.num == event_num)
                   (fun _ => cleared) kvm.kvm_events) })

/-- kvm_sdei_hypercall_status (sdei.c lines 447-493).  The local `kse`
    is initialised to NULL (line 452) and never reassigned, yet line 480
    reads `kse->state.type`; when the registration record exists the
    handler therefore dereferences a NULL pointer, modelled as `none`. -/
def kvm_sdei_hypercall_status (kvm : kvm_sdei_kvm) (vcpu_idx : Nat)
    (event_num : Nat) : Option Int :=
  let kse : Option kvm_sdei_event_state := none
  if !kvm_sdei_is_valid_event_num event_num then
    some SDEI_INVALID_PARAMETERS
  else
    match kvm_sdei_find_kvm_event kvm event_num with
    | none => some 0
    | some kske =>
      match kse with
      | none => none   -- NULL dereference at `kse->state.type`
      | some kse =>
        let index := eventIndex kse.type vcpu_idx
        let r0 : Nat := if kvm_sdei_is_registered kske index then
                          1 <<< SDEI_EVENT_STATUS_REGISTERED else 0
        let r1 : Nat := if kvm_sdei_is_enabled kske index then
                          1 <<< SDEI_EVENT_STATUS_ENABLED else 0
        let r2 : Nat := if kske.state.refcount != 0 then
                          1 <<< SDEI_EVENT_STATUS_RUNNING else 0
        some (Int.ofNat (r0 ||| r1 ||| r2))

/-- kvm_sdei_hypercall_info (sdei.c lines 495-567). -/
def kvm_sdei_hypercall_info (kvm : kvm_sdei_kvm)
    (event_num event_info : Nat) : Int :=
  if !kvm_sdei_is_valid_event_num event_num then
    SDEI_INVALID_PARAMETERS
  else
    let kske? := kvm_sdei_find_kvm_event kvm event_num
    let kse? := match kske? with
                | some kske => some kske.kse
                | none => kvm_sdei_find_event kvm event_num
    match kse? with
    | none => SDEI_INVALID_PARAMETERS
    | some kse =>
      if event_info == SDEI_EVENT_INFO_EV_TYPE then
        Int.ofNat kse.type
      else if event_info == SDEI_EVENT_INFO_EV_SIGNALED then
        Int.ofNat kse.signaled
      else if event_info == SDEI_EVENT_INFO_EV_PRIORITY then
        Int.ofNat kse.priority
      else if event_info == SDEI_EVENT_INFO_EV_ROUTING_MODE ||
              event_info == SDEI_EVENT_INFO_EV_ROUTING_AFF then
        if kse.type != SDEI_EVENT_TYPE_SHARED then
          SDEI_INVALID_PARAMETERS
        else if event_info == SDEI_EVENT_INFO_EV_ROUTING_MODE then
          match kske? with
          | some kske => Int.ofNat kske.state.route_mode
          | none => Int.ofNat SDEI_EVENT_REGISTER_RM_ANY
        else
          match kske? with
          | some kske => Int.ofNat kske.state.route_affinity
          | none => 0
      else
        SDEI_INVALID_PARAMETERS

/-- kvm_sdei_hypercall_route (sdei.c lines 569-629). -/
def kvm_sdei_hypercall_route (kvm : kvm_sdei_kvm)
    (event_num route_mode route_affinity : Nat) : Int × kvm_sdei_kvm :=
  if !kvm_sdei_is_valid_event_num event_num then
    (SDEI_INVALID_PARAMETERS, kvm)
  else if !(route_mode == SDEI_EVENT_REGISTER_RM_ANY ||
            route_mode == SDEI_EVENT_REGISTER_RM_PE) then
    (SDEI_INVALID_PARAMETERS, kvm)
  else
    match kvm_sdei_find_kvm_event kvm event_num with
    | none => (SDEI_INVALID_PARAMETERS, kvm)
    | some kske =>
      if kske.kse.type != SDEI_EVENT_TYPE_SHARED then
        (SDEI_INVALID_PARAMETERS, kvm)
      else if !kvm_sdei_is_registered kske 0 ||
              kvm_sdei_is_enabled kske 0 ||
              kske.state.refcount != 0 then
        (SDEI_DENIED, kvm)
      else
        (SDEI_SUCCESS,
         { kvm with kvm_events :=
             (updateFirst (fun e => e.state.num == event_num)
               (fun e =>
                 { e with state :=
                   { e.state with
                     route_mode := route_mode % 256,
                     route_affinity := route_affinity } })
               kvm.kvm_events) })

/-- kvm_sdei_hypercall_mask (sdei.c lines 631-660), shared by PE_MASK
    (mask = true) and PE_UNMASK (mask = false).  It only toggles the
    masked byte; no KVM_REQ_SDEI request is made. -/
def kvm_sdei_hypercall_mask (vcpu : kvm_vcpu) (mask : Bool) :
    Int × kvm_vcpu :=
  if (if mask then 1 else 0) == vcpu.sdei.state.masked then
    (SDEI_DENIED, vcpu)
  else
    (SDEI_SUCCESS,
     { vcpu with sdei :=
       { vcpu.sdei with state :=
         { vcpu.sdei.state with masked := if mask then 1 else 0 } } })

/-- kvm_sdei_remove_kvm_events (sdei.c lines 63-83): drop every
    registration whose event type is selected by `mask`, skipping (when
    not forced) records with a live refcount. -/
def kvm_sdei_remove_kvm_events (kvm : kvm_sdei_kvm) (mask : Nat)
    (force : Bool) : kvm_sdei_kvm :=
  { kvm with kvm_events :=
      kvm.kvm_events.filter (fun kske =>
        !(((1 <<< kske.kse.type) &&& mask != 0) &&
          (force || kske.state.refcount == 0))) }

/-- kvm_sdei_hypercall_reset (sdei.c lines 662-683), shared by
    PRIVATE_RESET (private = true) and SHARED_RESET (private = false). -/
def kvm_sdei_hypercall_reset (kvm : kvm_sdei_kvm) (priv : Bool) :
    Int × kvm_sdei_kvm :=
  let mask := if priv then 1 <<< SDEI_EVENT_TYPE_PRIVATE
              else 1 <<< SDEI_EVENT_TYPE_SHARED
  (SDEI_SUCCESS, kvm_sdei_remove_kvm_events kvm mask false)

/-- kvm_sdei_deliver (sdei.c lines 786-874): the DeliveryEngine step run
    at a VCPU-entry boundary.  It returns immediately when the critical
    lane is running; it does not read the masked flag.  The selected
    node stays on its pending list (no list_del here); the running-lane
    pointer is set to it.  `ksve->kske` is followed by looking the event
    number up in the registration list (the pointer is always valid in
    the C code; an absent record leaves the state unchanged here). -/
def kvm_sdei_deliver (kvm : kvm_sdei_kvm) (vcpu : kvm_vcpu) : kvm_vcpu :=
  let vsdei := vcpu.sdei
  -- the critical event can't be preempted
  if vsdei.critical_event.isSome then vcpu
  else
    -- a normal event can be preempted by a critical event, but not by
    -- another normal event
    let ksve? : Option kvm_sdei_vcpu_event_state :=
      match vsdei.critical_events.head? with
      | some v => some v
      | none =>
        if vsdei.normal_event.isNone then vsdei.normal_events.head? else none
    match ksve? with
    | none => vcpu
    | some ksve =>
      match kvm_sdei_find_kvm_event kvm ksve.num with
      | none => vcpu
      | some kske =>
        let kse := kske.kse
        let critical := kse.priority == SDEI_EVENT_PRIORITY_CRITICAL
        let oldRegs := if critical then vsdei.state.critical_regs
                       else vsdei.state.normal_regs
        -- save registers x0..x17, PC, PSTATE into the lane's block
        let savedRegs : kvm_sdei_vcpu_regs :=
          { regs := fun i => if i < 18 then vcpu.regs.x i else oldRegs.regs i,
            pc := vcpu.regs.pc,
            pstate := vcpu.regs.pstate }
        let index := eventIndex kse.type vcpu.vcpu_idx
        -- inject: x0..x17 zeroed, then x0 = num, x1 = param,
        -- x2 = saved PC, x3 = saved PSTATE
        let newX : Nat → Nat := fun i =>
          if i == 0 then kske.state.num
          else if i == 1 then kske.state.params index
          else if i == 2 then savedRegs.pc
          else if i == 3 then savedRegs.pstate
          else if i < 18 then 0
          else vcpu.regs.x i
        let pstate1 := savedRegs.pstate |||
                       (PSR_D_BIT ||| PSR_A_BIT ||| PSR_I_BIT ||| PSR_F_BIT)
        let pstate2 := andNot pstate1 PSR_MODE_MASK ||| PSR_MODE_EL1h
        let pstate3 := andNot pstate2 PSR_MODE32_BIT
        -- the notifier callback (KVM_SDEI_NOTIFY_DELIVERED) has no effect
        -- on the SDEI state and is not modelled
        { vcpu with
          regs :=
            { x := newX,
              pc := kske.state.entries index,
              pstate := pstate3,
              spsr_el1 := savedRegs.pstate },
          sdei :=
            { vsdei with
              critical_event := if critical then some ksve.num
                                else vsdei.critical_event,
              normal_event := if critical then vsdei.normal_event
                              else some ksve.num,
              state :=
                { vsdei.state with
                  critical_num := if critical then ksve.num
                                  else vsdei.state.critical_num,
                  normal_num := if critical then vsdei.state.normal_num
                                else ksve.num,
                  critical_regs := if critical then savedRegs
                                   else vsdei.state.critical_regs,
                  normal_regs := if critical then vsdei.state.normal_regs
                                 else savedRegs } } }

/-- C u32 decrement with wraparound (refcount--). -/
def decU32 (c : Nat) : Nat := if c == 0 then 4294967295 else c - 1

/-- ksve->state.refcount--; if it reaches zero the node is unlinked and
    freed (sdei.c lines 370-375). -/
def completeVcpuEvent (n : Nat) :
    List kvm_sdei_vcpu_event_state → List kvm_sdei_vcpu_event_state
  | [] => []
  | v :: t =>
    if v.num == n then
      if decU32 v.refcount == 0 then t
      else { v with refcount := decU32 v.refcount } :: t
    else v :: completeVcpuEvent n t

/-- kvm_sdei_hypercall_context (sdei.c lines 273-309).  The bounds check
    is `index > ARRAY_SIZE(regs)` with ARRAY_SIZE = 18, so index 18 slips
    past it and `regs->regs[index]` reads beyond the array (in the C
    struct layout it aliases the saved PC); the out-of-bounds access is
    modelled as `none`. -/
def kvm_sdei_hypercall_context (vcpu : kvm_vcpu) (index : Nat) : Option Int :=
  if index > 18 then
    some SDEI_INVALID_PARAMETERS
  else if vcpu.sdei.critical_event.isNone && vcpu.sdei.normal_event.isNone then
    some SDEI_DENIED
  else
    let regs := if vcpu.sdei.critical_event.isSome then
                  vcpu.sdei.state.critical_regs
                else vcpu.sdei.state.normal_regs
    if index < 18 then some (Int.ofNat (regs.regs index))
    else none   -- out-of-bounds read of regs->regs[18]

/-- kvm_sdei_hypercall_complete (sdei.c lines 311-386), shared by
    EVENT_COMPLETE (resume = false) and EVENT_COMPLETE_AND_RESUME
    (resume = true).  The critical lane is checked before the normal
    one; x0..x17, PSTATE and PC are restored from the lane's saved
    block; the lane is cleared; the refcounts of the vcpu node and of
    the registration record are decremented; a KVM_REQ_SDEI request is
    made when either pending list is still non-empty.  The completed
    notifier call and kvm_inject_irq (for resume) do not touch SDEI
    state and are not modelled. -/
def kvm_sdei_hypercall_complete (kvm : kvm_sdei_kvm) (vcpu : kvm_vcpu)
    (resume : Bool) : Int × kvm_sdei_kvm × kvm_vcpu :=
  let vsdei := vcpu.sdei
  let lane? : Option (Nat × Bool) :=
    match vsdei.critical_event with
    | some n => some (n, true)
    | none =>
      match vsdei.normal_event with
      | some n => some (n, false)
      | none => none
  match lane? with
  | none => (SDEI_DENIED, kvm, vcpu)
  | some (n, crit) =>
    let savedRegs := if crit then vsdei.state.critical_regs
                     else vsdei.state.normal_regs
    -- restore registers: x0 -> x17, PC, PState
    let regs1 : GuestRegs :=
      { vcpu.regs with
        x := fun i => if i < 18 then savedRegs.regs i else vcpu.regs.x i,
        pstate := savedRegs.pstate,
        pc := savedRegs.pc }
    -- clear the lane (critical_num/normal_num := KVM_SDEI_INVALID_NUM)
    let vsdei1 :=
      if crit then
        { vsdei with critical_event := none,
                     state := { vsdei.state with
                                critical_num := KVM_SDEI_INVALID_NUM } }
      else
        { vsdei with normal_event := none,
                     state := { vsdei.state with
                                normal_num := KVM_SDEI_INVALID_NUM } }
    -- kske->state.refcount--
    let kvm1 : kvm_sdei_kvm :=
      { kvm with kvm_events :=
          (updateFirst (fun e => e.state.num == n)
            (fun e =>
              { e with state :=
                { e.state with refcount := decU32 e.state.refcount } })
            kvm.kvm_events) }
    -- ksve->state.refcount--, unlinking the node when it reaches zero
    let vsdei2 :=
      if crit then
        { vsdei1 with critical_events :=
            completeVcpuEvent n vsdei1.critical_events }
      else
        { vsdei1 with normal_events :=
            completeVcpuEvent n vsdei1.normal_events }
    -- make another request if there is a pending event
    let req := !(vsdei2.critical_events.isEmpty && vsdei2.normal_events.isEmpty)
    (SDEI_SUCCESS, kvm1,
     { vcpu with regs := regs1, sdei := vsdei2,
                 req_sdei := if req then true else vcpu.req_sdei })

/- ---------------------------------------------------------------------
   VM / VCPU initialization and the management-plane (ioctl) calls.
   --------------------------------------------------------------------- -/

/-- The static defined_kse table (sdei.c lines 16-22): one private, signaled,
    critical default event. -/
def defined_kse : List kvm_sdei_event_state :=
  [{ num := KVM_SDEI_DEFAULT_NUM,
     type := SDEI_EVENT_TYPE_PRIVATE,
     signaled := 1,
     priority := SDEI_EVENT_PRIORITY_CRITICAL }]

/-- kvm_sdei_init_vm (sdei.c lines 876-908), allocation succeeding. -/
def kvm_sdei_init_vm : kvm_sdei_kvm :=
  { events := defined_kse, kvm_events := [] }

/-- kvm_sdei_create_vcpu (sdei.c lines 910-932): masked defaults to 1,
    both lanes idle, no pending events.  The guest register file is the
    caller's. -/
def kvm_sdei_create_vcpu (idx : Nat) (regs : GuestRegs) : kvm_vcpu :=
  { vcpu_idx := idx,
    regs := regs,
    sdei :=
      { state :=
        { masked := 1,
          critical_num := KVM_SDEI_INVALID_NUM,
          normal_num := KVM_SDEI_INVALID_NUM,
          critical_regs := { regs := fun _ => 0, pc := 0, pstate := 0 },
          normal_regs := { regs := fun _ => 0, pc := 0, pstate := 0 } },
        critical_event := none,
        normal_event := none,
        critical_events := [],
        normal_events := [] },
    req_sdei := false }

/-- kvm_sdei_set_event (sdei.c lines 934-964): administrative definition
    of a new catalog event (KVM_SDEI_CMD_SET_EVENT).  Returns 0 or a
    negative errno. -/
def kvm_sdei_set_event (kvm : kvm_sdei_kvm)
    (kse_state : kvm_sdei_event_state) : Int × kvm_sdei_kvm :=
  if !kvm_sdei_is_valid_event_num kse_state.num then
    (-22, kvm)   -- -EINVAL
  else if !(kse_state.type == SDEI_EVENT_TYPE_SHARED ||
            kse_state.type == SDEI_EVENT_TYPE_PRIVATE) then
    (-22, kvm)
  else if !(kse_state.priority == SDEI_EVENT_PRIORITY_NORMAL ||
            kse_state.priority == SDEI_EVENT_PRIORITY_CRITICAL) then
    (-22, kvm)
  else
    match kvm_sdei_find_event kvm kse_state.num with
    | some _ => (-17, kvm)   -- -EEXIST
    | none =>
      (0, { kvm with events := kvm.events ++ [kse_state] })

/-- kvm_sdei_set_kevent (sdei.c lines 1009-1044): administrative
    pre-seeding of a registration record (KVM_SDEI_CMD_SET_KEVENT).
    The caller-supplied state is installed verbatim; only the event
    number and the route mode are validated. -/
def kvm_sdei_set_kevent (kvm : kvm_sdei_kvm)
    (kske_state : kvm_sdei_kvm_event_state) : Int × kvm_sdei_kvm :=
  if !kvm_sdei_is_valid_event_num kske_state.num then
    (-22, kvm)   -- -EINVAL
  else if !(kske_state.route_mode == SDEI_EVENT_REGISTER_RM_ANY ||
            kske_state.route_mode == SDEI_EVENT_REGISTER_RM_PE) then
    (-22, kvm)
  else
    match kvm_sdei_find_event kvm kske_state.num with
    | none => (-2, kvm)   -- -ENOENT
    | some kse =>
      match kvm_sdei_find_kvm_event kvm kske_state.num with
      | some _ => (-17, kvm)   -- -EEXIST
      | none =>
        (0, { kvm with kvm_events :=
                kvm.kvm_events ++ [{ state := kske_state, kse := kse }] })

/- ---------------------------------------------------------------------
   Guest-reachable operation sequences.
   --------------------------------------------------------------------- -/

/-- One guest-driven operation: a hypercall issued by some VCPU (the
    VM-level calls carry the issuing VCPU index), or the DeliveryEngine
    step run by the VCPU run loop. -/
inductive GuestOp where
  | registerCall (vidx num entry param rm ra : Nat)
  | enableCall (vidx num : Nat)
  | disableCall (vidx num : Nat)
  | unregisterCall (vidx num : Nat)
  | routeCall (num rm ra : Nat)
  | resetCall (priv : Bool)
  | maskCall (m : Bool)
  | completeCall (resume : Bool)
  | deliverStep

/-- The joint VM-plus-tracked-VCPU state an operation acts on. -/
abbrev SdeiSys := kvm_sdei_kvm × kvm_vcpu

/-- Effect of one guest operation on the system state. -/
def sdei_step : GuestOp → SdeiSys → SdeiSys
  | .registerCall vidx num e p rm ra, (k, v) =>
    ((kvm_sdei_hypercall_register k vidx num e p rm ra).2, v)
  | .enableCall vidx num, (k, v) =>
    ((kvm_sdei_hypercall_enable k vidx num true).2, v)
  | .disableCall vidx num, (k, v) =>
    ((kvm_sdei_hypercall_enable k vidx num false).2, v)
  | .unregisterCall vidx num, (k, v) =>
    ((kvm_sdei_hypercall_unregister k vidx num).2, v)
  | .routeCall num rm ra, (k, v) =>
    ((kvm_sdei_hypercall_route k num rm ra).2, v)
  | .resetCall p, (k, v) =>
    ((kvm_sdei_hypercall_reset k p).2, v)
  | .maskCall m, (k, v) =>
    (k, (kvm_sdei_hypercall_mask v m).2)
  | .completeCall r, (k, v) =>
    let t := kvm_sdei_hypercall_complete k v r
    (t.2.1, t.2.2)
  | .deliverStep, (k, v) =>
    (k, kvm_sdei_deliver k v)

/-- Run a sequence of guest operations. -/
def sdei_run (ops : List GuestOp) (s : SdeiSys) : SdeiSys :=
  ops.foldl (fun s op => sdei_step op s) s

/-- The no-orphan-enablement invariant: in every registration record,
    an enabled index is a registered index. -/
def no_orphan_enable (kvm : kvm_sdei_kvm) : Prop :=
  ∀ e ∈ kvm.kvm_events, ∀ i,
    e.state.enabled i = true → e.state.registered i = true

/- ---------------------------------------------------------------------
   Concrete states used by the closed counterexample and witness
   theorems below.  States containing a non-zero refcount or queued
   vcpu-event nodes are the images of injections (kvm_sdei_inject lives
   outside this file's sources); they are also directly installable
   through the KVM_SDEI_CMD_SET_KEVENT management-plane call, which
   accepts refcounts and bitmaps verbatim.
   --------------------------------------------------------------------- -/

/-- A sample guest register file: x_i = 1000 + i. -/
def exRegs : GuestRegs :=
  { x := fun i => 1000 + i, pc := 0x77, pstate := 0x345, spsr_el1 := 9 }

/-- A shared, normal-priority catalog event defined by the management
    plane. -/
def exSharedEvent : kvm_sdei_event_state :=
  { num := 0x40400001, type := SDEI_EVENT_TYPE_SHARED, signaled := 0,
    priority := SDEI_EVENT_PRIORITY_NORMAL }

/-- VM state after the management plane defines the shared event. -/
def exKvmShared : kvm_sdei_kvm :=
  (kvm_sdei_set_event kvm_sdei_init_vm exSharedEvent).2

/-- VM state after VCPU 0 registers the default event
    (entry 0x1000, argument 0xAA). -/
def exKvmReg : kvm_sdei_kvm :=
  (kvm_sdei_hypercall_register kvm_sdei_init_vm 0 KVM_SDEI_DEFAULT_NUM
     0x1000 0xAA SDEI_EVENT_REGISTER_RM_ANY 0).2

/-- exKvmReg with the default event also enabled. -/
def exKvmRegEnabled : kvm_sdei_kvm :=
  (kvm_sdei_hypercall_enable exKvmReg 0 KVM_SDEI_DEFAULT_NUM true).2

/-- A registration record for the default event with one outstanding
    instance (refcount 1), registered and enabled at index 0. -/
def exRunningState : kvm_sdei_kvm_event_state :=
  { num := KVM_SDEI_DEFAULT_NUM, refcount := 1,
    route_mode := 0, route_affinity := 0,
    entries := fun j => if j == 0 then 0x1000 else 0,
    params := fun j => if j == 0 then 0xAA else 0,
    registered := fun j => j == 0,
    enabled := fun j => j == 0 }

/-- VM state holding exRunningState (installed via SET_KEVENT). -/
def exKvmRunning : kvm_sdei_kvm :=
  (kvm_sdei_set_kevent kvm_sdei_init_vm exRunningState).2

/-- A second private critical catalog event 0x40400001 next to the
    default one. -/
def exKvmTwoEvents0 : kvm_sdei_kvm :=
  (kvm_sdei_set_event kvm_sdei_init_vm
    { num := 0x40400001, type := SDEI_EVENT_TYPE_PRIVATE, signaled := 1,
      priority := SDEI_EVENT_PRIORITY_CRITICAL }).2

/-- Both critical events registered by VCPU 0. -/
def exKvmTwoEvents : kvm_sdei_kvm :=
  (kvm_sdei_hypercall_register
    (kvm_sdei_hypercall_register exKvmTwoEvents0 0 KVM_SDEI_DEFAULT_NUM
       0x1000 0xAA SDEI_EVENT_REGISTER_RM_ANY 0).2
    0 0x40400001 0x2000 0xBB SDEI_EVENT_REGISTER_RM_ANY 0).2

/-- A freshly created VCPU 0 (masked, idle, nothing pending). -/
def exVcpuIdle : kvm_vcpu := kvm_sdei_create_vcpu 0 exRegs

/-- exVcpuIdle with one queued instance of the default (critical)
    event, as left by an injection. -/
def exVcpuPending : kvm_vcpu :=
  { exVcpuIdle with sdei :=
    { exVcpuIdle.sdei with
      critical_events := [{ num := KVM_SDEI_DEFAULT_NUM, refcount := 1 }] } }

/-- exVcpuIdle with two queued critical instances, event 0x40400001
    injected before event 0x40400000. -/
def exVcpuTwoPending : kvm_vcpu :=
  { exVcpuIdle with sdei :=
    { exVcpuIdle.sdei with
      critical_events := [{ num := 0x40400001, refcount := 1 },
                          { num := KVM_SDEI_DEFAULT_NUM, refcount := 1 }] } }

/-- The VCPU after the default event has been delivered on the critical
    lane: registers rewritten to the handler, pre-delivery register file
    (exRegs) saved in the critical lane block. -/
def exVcpuDelivered : kvm_vcpu := kvm_sdei_deliver exKvmRunning exVcpuPending

/- ---------------------------------------------------------------------
   Claim theorems.
   --------------------------------------------------------------------- -/

/-- Claim C4 (code bug): the EventStatus handler initialises its local
    `kse` to NULL and never reassigns it, yet dereferences it to choose
    the bitmask index.  Whenever the queried event has a registration
    record the hypercall therefore hits a host-internal NULL-pointer
    dereference (modelled as none) instead of returning the
    Registered/Enabled/Running bitmask; only the no-record case returns
    the documented 0. -/
theorem c4_status_null_deref :
    kvm_sdei_hypercall_status exKvmReg 0 KVM_SDEI_DEFAULT_NUM = none ∧
    kvm_sdei_hypercall_status kvm_sdei_init_vm 0 KVM_SDEI_DEFAULT_NUM =
      some 0 := by
  constructor <;> rfl

/-- Claim C5 (code bug): the EventContext bounds check is
    `index > ARRAY_SIZE(regs)` instead of `>=`, so index 18 — outside
    the saved range 0..17 — is not rejected with InvalidParameters but
    reaches `regs->regs[18]`, an out-of-bounds read (none).  Indices 19
    and above are rejected, indices 0..17 return the occupied (critical)
    lane's saved register, and with no lane occupied the call is
    Denied. -/
theorem c5_context_off_by_one :
    kvm_sdei_hypercall_context exVcpuDelivered 18 = none ∧
    kvm_sdei_hypercall_context exVcpuDelivered 19 =
      some SDEI_INVALID_PARAMETERS ∧
    kvm_sdei_hypercall_context exVcpuDelivered 17 = some 1017 ∧
    kvm_sdei_hypercall_context exVcpuIdle 0 = some SDEI_DENIED := by
  refine ⟨rfl, rfl, rfl, rfl⟩

/-- Claim C7 (code bug): on the path that creates the registration
    record, the register handler stores `route_affinity` into the
    `route_mode` field (sdei.c line 192).  Registering the shared event
    with route_mode = RM_ANY (0) and route_affinity = 1 succeeds, but a
    get-info query for the routing mode then returns 1 — the affinity
    argument — rather than the recorded-mode 0 the claim requires (the
    affinity query itself is correct). -/
theorem c7_register_records_affinity_as_mode :
    (kvm_sdei_hypercall_register exKvmShared 3 0x40400001 0xE000 0xA0
       SDEI_EVENT_REGISTER_RM_ANY 1).1 = SDEI_SUCCESS ∧
    kvm_sdei_hypercall_info
      (kvm_sdei_hypercall_register exKvmShared 3 0x40400001 0xE000 0xA0
         SDEI_EVENT_REGISTER_RM_ANY 1).2
      0x40400001 SDEI_EVENT_INFO_EV_ROUTING_MODE = 1 ∧
    kvm_sdei_hypercall_info
      (kvm_sdei_hypercall_register exKvmShared 3 0x40400001 0xE000 0xA0
         SDEI_EVENT_REGISTER_RM_ANY 1).2
      0x40400001 SDEI_EVENT_INFO_EV_ROUTING_AFF = 1 ∧
    (Int.ofNat SDEI_EVENT_REGISTER_RM_ANY ≠ 1) := by
  refine ⟨rfl, rfl, rfl, by decide⟩

/-- The default catalog event as a standalone literal (equal to the
    single entry of defined_kse). -/
def exDefaultEvent : kvm_sdei_event_state :=
  { num := KVM_SDEI_DEFAULT_NUM,
    type := SDEI_EVENT_TYPE_PRIVATE,
    signaled := 1,
    priority := SDEI_EVENT_PRIORITY_CRITICAL }

/-- Claim C1 counterexample: a masked VCPU (masked = 1) with a pending
    critical event is delivered to anyway — kvm_sdei_deliver never
    reads the masked flag — so the Deliver step does select an event,
    occupy the critical lane and rewrite the guest PC while the VCPU is
    masked, contradicting the claim. -/
theorem c1_masked_delivery_counterexample :
    exVcpuPending.sdei.state.masked = 1 ∧
    exVcpuPending.sdei.critical_events ≠ [] ∧
    (kvm_sdei_deliver exKvmRunning exVcpuPending).sdei.critical_event =
      some KVM_SDEI_DEFAULT_NUM ∧
    (kvm_sdei_deliver exKvmRunning exVcpuPending).regs.pc = 0x1000 := by
  refine ⟨rfl, by decide, rfl, rfl⟩

/-- Claim C1, amended: the Deliver step delivers nothing — returning the
    VCPU unchanged — exactly when the critical lane is already running;
    the masked flag is not consulted by Deliver (masking is enforced at
    injection time, outside this translation unit). -/
theorem c1_deliver_blocked_by_critical_lane (kvm : kvm_sdei_kvm)
    (vcpu : kvm_vcpu) (h : vcpu.sdei.critical_event.isSome = true) :
    kvm_sdei_deliver kvm vcpu = vcpu := by
  unfold kvm_sdei_deliver
  simp [h]

/-- Witness for c1_deliver_blocked_by_critical_lane: the delivered state
    exVcpuDelivered has its critical lane occupied, and Deliver leaves
    it untouched. -/
theorem c1_deliver_blocked_witness :
    exVcpuDelivered.sdei.critical_event.isSome = true ∧
    kvm_sdei_deliver exKvmRunning exVcpuDelivered = exVcpuDelivered :=
  ⟨rfl, c1_deliver_blocked_by_critical_lane exKvmRunning exVcpuDelivered rfl⟩

/-- Claim C2 counterexample: unregistering the default event while its
    refcount is 1 returns Pending, but — contrary to the claim — the
    registered and enabled bits for index 0 are still set afterwards:
    the handler returns before the clearing statements run. -/
theorem c2_unregister_pending_keeps_bits_counterexample :
    (kvm_sdei_hypercall_unregister exKvmRunning 0 KVM_SDEI_DEFAULT_NUM).1 =
      SDEI_PENDING ∧
    ((kvm_sdei_find_kvm_event
        (kvm_sdei_hypercall_unregister exKvmRunning 0 KVM_SDEI_DEFAULT_NUM).2
        KVM_SDEI_DEFAULT_NUM).map
      (fun k => (k.state.registered 0, k.state.enabled 0))) =
      some (true, true) := by
  refine ⟨rfl, rfl⟩

/-- Claim C2, amended: when the event's refcount is non-zero the
    unregister hypercall returns Pending and leaves the whole VM state —
    registered bit, enabled bit and table entry included — completely
    unchanged; nothing is cleared until a later unregister issued after
    the outstanding instances complete. -/
theorem c2_unregister_running_returns_pending (kvm : kvm_sdei_kvm)
    (vidx num : Nat) (kske : kvm_sdei_kvm_event)
    (hv : kvm_sdei_is_valid_event_num num = true)
    (hf : kvm_sdei_find_kvm_event kvm num = some kske)
    (hr : kske.state.refcount ≠ 0) :
    kvm_sdei_hypercall_unregister kvm vidx num = (SDEI_PENDING, kvm) := by
  unfold kvm_sdei_hypercall_unregister
  simp [hv, hf, bne_iff_ne, hr]

/-- Witness for c2_unregister_running_returns_pending at the concrete
    running-registration state. -/
theorem c2_unregister_running_witness :
    kvm_sdei_is_valid_event_num KVM_SDEI_DEFAULT_NUM = true ∧
    kvm_sdei_find_kvm_event exKvmRunning KVM_SDEI_DEFAULT_NUM =
      some { state := exRunningState, kse := exDefaultEvent } ∧
    exRunningState.refcount ≠ 0 ∧
    kvm_sdei_hypercall_unregister exKvmRunning 0 KVM_SDEI_DEFAULT_NUM =
      (SDEI_PENDING, exKvmRunning) :=
  ⟨by decide, rfl, by decide,
   c2_unregister_running_returns_pending exKvmRunning 0 KVM_SDEI_DEFAULT_NUM
     { state := exRunningState, kse := exDefaultEvent } (by decide) rfl
     (by decide)⟩

/-- Claim C8 counterexample: on a masked VCPU with a pending event,
    PeUnmask returns Success and clears the masked flag, but the
    KVM_REQ_SDEI request flag stays false — the mask hypercall never
    calls kvm_make_request, so no deferred delivery is triggered by the
    unmask itself. -/
theorem c8_unmask_no_request_counterexample :
    exVcpuPending.sdei.state.masked = 1 ∧
    exVcpuPending.sdei.critical_events ≠ [] ∧
    exVcpuPending.req_sdei = false ∧
    (kvm_sdei_hypercall_mask exVcpuPending false).1 = SDEI_SUCCESS ∧
    (kvm_sdei_hypercall_mask exVcpuPending false).2.sdei.state.masked = 0 ∧
    (kvm_sdei_hypercall_mask exVcpuPending false).2.req_sdei = false := by
  refine ⟨rfl, by decide, rfl, rfl, rfl, rfl⟩

/-- Claim C8, amended: a PeMask/PeUnmask call that toggles the masked
    flag to a different value returns Success and updates only that
    flag; the pending lists, the request flag and everything else are
    untouched, and in particular no deferred delivery request is made
    on unmask. -/
theorem c8_mask_toggle_updates_only_masked (vcpu : kvm_vcpu) (m : Bool)
    (h : ((if m then 1 else 0 : Nat) == vcpu.sdei.state.masked) = false) :
    kvm_sdei_hypercall_mask vcpu m =
      (SDEI_SUCCESS,
       { vcpu with sdei := { vcpu.sdei with state :=
           { vcpu.sdei.state with masked := if m then 1 else 0 } } }) := by
  unfold kvm_sdei_hypercall_mask
  simp [h]

/-- Witness for c8_mask_toggle_updates_only_masked: unmasking the
    freshly created (masked) VCPU with a pending event. -/
theorem c8_mask_toggle_witness :
    ((if false then 1 else 0 : Nat) == exVcpuPending.sdei.state.masked) =
      false ∧
    kvm_sdei_hypercall_mask exVcpuPending false =
      (SDEI_SUCCESS,
       { exVcpuPending with sdei := { exVcpuPending.sdei with state :=
           { exVcpuPending.sdei.state with
               masked := if false then 1 else 0 } } }) :=
  ⟨rfl, c8_mask_toggle_updates_only_masked exVcpuPending false rfl⟩

/-- A queued instance of event 0x40400001 as created by the second
    register call of exKvmTwoEvents. -/
def exSecondRecord : kvm_sdei_kvm_event :=
  { state :=
    { num := 0x40400001, refcount := 0, route_mode := 0, route_affinity := 0,
      entries := fun j => if j == 0 then 0x2000 else 0,
      params := fun j => if j == 0 then 0xBB else 0,
      registered := fun j => j == 0,
      enabled := fun _ => false },
    kse := { num := 0x40400001, type := SDEI_EVENT_TYPE_PRIVATE,
             signaled := 1, priority := SDEI_EVENT_PRIORITY_CRITICAL } }

/-- Claim C3 (confirmed): delivering an event and then completing it
    with resume = false restores every general-purpose register, the PC
    and the PSTATE to exactly their pre-delivery values and leaves the
    delivering lane idle, for any pre-delivery register file.  The
    selection hypothesis covers both lanes: either the critical queue
    head is a critical-priority event, or the critical queue is empty,
    the normal lane idle, and the normal queue non-empty. -/
theorem c3_deliver_complete_round_trip (kvm : kvm_sdei_kvm)
    (vcpu : kvm_vcpu) (v : kvm_sdei_vcpu_event_state)
    (kske : kvm_sdei_kvm_event)
    (hce : vcpu.sdei.critical_event = none)
    (hf : kvm_sdei_find_kvm_event kvm v.num = some kske)
    (hsel : (vcpu.sdei.critical_events.head? = some v ∧
             kske.kse.priority = SDEI_EVENT_PRIORITY_CRITICAL) ∨
            (vcpu.sdei.critical_events = [] ∧
             vcpu.sdei.normal_event = none ∧
             vcpu.sdei.normal_events.head? = some v)) :
    (kvm_sdei_hypercall_complete kvm (kvm_sdei_deliver kvm vcpu) false).1 =
      SDEI_SUCCESS ∧
    (kvm_sdei_hypercall_complete kvm
        (kvm_sdei_deliver kvm vcpu) false).2.2.regs.x = vcpu.regs.x ∧
    (kvm_sdei_hypercall_complete kvm
        (kvm_sdei_deliver kvm vcpu) false).2.2.regs.pc = vcpu.regs.pc ∧
    (kvm_sdei_hypercall_complete kvm
        (kvm_sdei_deliver kvm vcpu) false).2.2.regs.pstate =
      vcpu.regs.pstate ∧
    (kvm_sdei_hypercall_complete kvm
        (kvm_sdei_deliver kvm vcpu) false).2.2.sdei.critical_event = none ∧
    (kvm_sdei_hypercall_complete kvm
        (kvm_sdei_deliver kvm vcpu) false).2.2.sdei.normal_event =
      vcpu.sdei.normal_event := by
  rcases hsel with ⟨h1, hp⟩ | ⟨h1, h2, h3⟩
  · simp only [kvm_sdei_deliver, kvm_sdei_hypercall_complete, hce, h1, hf, hp]
    simp
    funext i
    by_cases hi : i < 18
    · simp [hi]
    · have e0 : i ≠ 0 := by omega
      have e1 : i ≠ 1 := by omega
      have e2 : i ≠ 2 := by omega
      have e3 : i ≠ 3 := by omega
      simp [hi, e0, e1, e2, e3]
  · by_cases hp : kske.kse.priority = SDEI_EVENT_PRIORITY_CRITICAL
    · simp [kvm_sdei_deliver, kvm_sdei_hypercall_complete, hce, h1, h2, h3,
        hf, hp]
      funext i
      by_cases hi : i < 18
      · simp [hi]
      · have e0 : i ≠ 0 := by omega
        have e1 : i ≠ 1 := by omega
        have e2 : i ≠ 2 := by omega
        have e3 : i ≠ 3 := by omega
        simp [hi, e0, e1, e2, e3]
    · have hp' : (kske.kse.priority == SDEI_EVENT_PRIORITY_CRITICAL) = false := by
        simpa using hp
      simp [kvm_sdei_deliver, kvm_sdei_hypercall_complete, hce, h1, h2, h3,
        hf, hp']
      funext i
      by_cases hi : i < 18
      · simp [hi]
      · have e0 : i ≠ 0 := by omega
        have e1 : i ≠ 1 := by omega
        have e2 : i ≠ 2 := by omega
        have e3 : i ≠ 3 := by omega
        simp [hi, e0, e1, e2, e3]

/-- Witness for c3_deliver_complete_round_trip: delivering the pending
    default critical event on the fresh VCPU and completing it restores
    the register file exRegs exactly. -/
theorem c3_deliver_complete_round_trip_witness :
    exVcpuPending.sdei.critical_event = none ∧
    kvm_sdei_find_kvm_event exKvmRunning KVM_SDEI_DEFAULT_NUM =
      some { state := exRunningState, kse := exDefaultEvent } ∧
    exVcpuPending.sdei.critical_events.head? =
      some { num := KVM_SDEI_DEFAULT_NUM, refcount := 1 } ∧
    ((kvm_sdei_hypercall_complete exKvmRunning
        (kvm_sdei_deliver exKvmRunning exVcpuPending) false).1 =
       SDEI_SUCCESS ∧
     (kvm_sdei_hypercall_complete exKvmRunning
        (kvm_sdei_deliver exKvmRunning exVcpuPending) false).2.2.regs.x =
       exVcpuPending.regs.x ∧
     (kvm_sdei_hypercall_complete exKvmRunning
        (kvm_sdei_deliver exKvmRunning exVcpuPending) false).2.2.regs.pc =
       exVcpuPending.regs.pc ∧
     (kvm_sdei_hypercall_complete exKvmRunning
        (kvm_sdei_deliver exKvmRunning exVcpuPending) false).2.2.regs.pstate =
       exVcpuPending.regs.pstate ∧
     (kvm_sdei_hypercall_complete exKvmRunning
        (kvm_sdei_deliver exKvmRunning exVcpuPending)
        false).2.2.sdei.critical_event = none ∧
     (kvm_sdei_hypercall_complete exKvmRunning
        (kvm_sdei_deliver exKvmRunning exVcpuPending)
        false).2.2.sdei.normal_event = exVcpuPending.sdei.normal_event) :=
  ⟨rfl, rfl, rfl,
   c3_deliver_complete_round_trip exKvmRunning exVcpuPending
     { num := KVM_SDEI_DEFAULT_NUM, refcount := 1 }
     { state := exRunningState, kse := exDefaultEvent }
     rfl rfl (Or.inl ⟨rfl, rfl⟩)⟩

/-- Claim C6 counterexample: with two critical events pending in queue
    order [0x40400001, 0x40400000] (both of critical priority and the
    critical lane idle), Deliver selects 0x40400001 — the queue head —
    although 0x40400000 is the lowest-numbered pending critical event,
    refuting the lowest-number selection rule. -/
theorem c6_deliver_head_not_lowest_counterexample :
    exVcpuTwoPending.sdei.critical_event = none ∧
    exVcpuTwoPending.sdei.critical_events.map (fun w => w.num) =
      [0x40400001, KVM_SDEI_DEFAULT_NUM] ∧
    KVM_SDEI_DEFAULT_NUM < 0x40400001 ∧
    ((kvm_sdei_find_kvm_event exKvmTwoEvents KVM_SDEI_DEFAULT_NUM).map
      (fun k => k.kse.priority)) = some SDEI_EVENT_PRIORITY_CRITICAL ∧
    ((kvm_sdei_find_kvm_event exKvmTwoEvents 0x40400001).map
      (fun k => k.kse.priority)) = some SDEI_EVENT_PRIORITY_CRITICAL ∧
    (kvm_sdei_deliver exKvmTwoEvents exVcpuTwoPending).sdei.state.critical_num =
      0x40400001 := by
  refine ⟨rfl, rfl, by decide, rfl, rfl, rfl⟩

/-- Claim C6, amended: when the critical lane is idle, Deliver selects
    the head of the critical pending queue (FIFO order, a deterministic
    choice) if that queue is non-empty; a running normal event blocks
    any further selection once the critical queue is empty; and the head
    of the normal queue is selected only when the critical queue is
    empty and the normal lane idle. -/
theorem c6_deliver_fifo_selection (kvm : kvm_sdei_kvm) (vcpu : kvm_vcpu)
    (v : kvm_sdei_vcpu_event_state) (kske : kvm_sdei_kvm_event)
    (hce : vcpu.sdei.critical_event = none) :
    (vcpu.sdei.critical_events.head? = some v →
     kvm_sdei_find_kvm_event kvm v.num = some kske →
     kske.kse.priority = SDEI_EVENT_PRIORITY_CRITICAL →
     (kvm_sdei_deliver kvm vcpu).sdei.critical_event = some v.num ∧
     (kvm_sdei_deliver kvm vcpu).sdei.state.critical_num = v.num) ∧
    (vcpu.sdei.critical_events = [] → vcpu.sdei.normal_event.isSome = true →
     kvm_sdei_deliver kvm vcpu = vcpu) ∧
    (vcpu.sdei.critical_events = [] → vcpu.sdei.normal_event = none →
     vcpu.sdei.normal_events.head? = some v →
     kvm_sdei_find_kvm_event kvm v.num = some kske →
     kske.kse.priority ≠ SDEI_EVENT_PRIORITY_CRITICAL →
     (kvm_sdei_deliver kvm vcpu).sdei.normal_event = some v.num ∧
     (kvm_sdei_deliver kvm vcpu).sdei.state.normal_num = v.num) := by
  refine ⟨?_, ?_, ?_⟩
  · intro h1 h2 h3
    simp [kvm_sdei_deliver, hce, h1, h2, h3]
  · intro h1 h2
    have hne : vcpu.sdei.normal_event ≠ none := by
      intro hn; rw [hn] at h2; cases h2
    simp [kvm_sdei_deliver, hce, h1, hne]
  · intro h1 h2 h3 h4 h5
    have h5' : (kske.kse.priority == SDEI_EVENT_PRIORITY_CRITICAL) = false := by
      simpa using h5
    simp [kvm_sdei_deliver, hce, h1, h2, h3, h4, h5']

/-- Witness for c6_deliver_fifo_selection: the queue-head selection at
    the concrete two-pending state. -/
theorem c6_deliver_fifo_selection_witness :
    exVcpuTwoPending.sdei.critical_event = none ∧
    exVcpuTwoPending.sdei.critical_events.head? =
      some { num := 0x40400001, refcount := 1 } ∧
    kvm_sdei_find_kvm_event exKvmTwoEvents 0x40400001 =
      some exSecondRecord ∧
    ((kvm_sdei_deliver exKvmTwoEvents exVcpuTwoPending).sdei.critical_event =
       some 0x40400001 ∧
     (kvm_sdei_deliver
        exKvmTwoEvents exVcpuTwoPending).sdei.state.critical_num =
       0x40400001) :=
  ⟨rfl, rfl, rfl,
   (c6_deliver_fifo_selection exKvmTwoEvents exVcpuTwoPending
      { num := 0x40400001, refcount := 1 } exSecondRecord rfl).1
     rfl rfl rfl⟩

/- Helper lemmas about list mutation through a found node, used for the
   invariant preservation proofs. -/

lemma mem_updateFirst {p : α → Bool} {f : α → α} {l : List α} {b : α}
    (hb : b ∈ updateFirst p f l) : b ∈ l ∨ ∃ a ∈ l, b = f a := by
  induction l with
  | nil => cases hb
  | cons a t ih =>
    by_cases hpa : p a
    · simp only [updateFirst, hpa, if_true] at hb
      rcases List.mem_cons.mp hb with h | h
      · exact Or.inr ⟨a, List.mem_cons_self a t, h⟩
      · exact Or.inl (List.mem_cons_of_mem a h)
    · simp only [updateFirst, hpa, if_false] at hb
      rcases List.mem_cons.mp hb with h | h
      · exact Or.inl (h ▸ List.mem_cons_self a t)
      · rcases ih h with h' | ⟨c, hc, hbc⟩
        · exact Or.inl (List.mem_cons_of_mem a h')
        · exact Or.inr ⟨c, List.mem_cons_of_mem a hc, hbc⟩

lemma mem_updateFirst_find {p : α → Bool} {f : α → α} {l : List α} {a b : α}
    (hfind : l.find? p = some a) (hb : b ∈ updateFirst p f l) :
    b ∈ l ∨ b = f a := by
  induction l with
  | nil => cases hb
  | cons x t ih =>
    by_cases hpx : p x
    · rw [List.find?_cons_of_pos _ hpx] at hfind
      injection hfind with hxa
      subst hxa
      simp only [updateFirst, hpx, if_true] at hb
      rcases List.mem_cons.mp hb with h | h
      · exact Or.inr h
      · exact Or.inl (List.mem_cons_of_mem _ h)
    · rw [List.find?_cons_of_neg _ hpx] at hfind
      simp only [updateFirst, hpx, if_false] at hb
      rcases List.mem_cons.mp hb with h | h
      · exact Or.inl (h ▸ List.mem_cons_self x t)
      · rcases ih hfind h with h' | h'
        · exact Or.inl (List.mem_cons_of_mem x h')
        · exact Or.inr h'

lemma mem_of_eraseP {p : α → Bool} {l : List α} {b : α}
    (hb : b ∈ l.eraseP p) : b ∈ l :=
  (List.eraseP_sublist l).mem hb

/- The no-orphan-enablement invariant is preserved by each guest
   operation. -/

lemma no_orphan_register_step (kvm : kvm_sdei_kvm)
    (vidx num entry param rm ra : Nat) (h : no_orphan_enable kvm) :
    no_orphan_enable
      (kvm_sdei_hypercall_register kvm vidx num entry param rm ra).2 := by
  unfold kvm_sdei_hypercall_register
  split
  · exact h
  split
  · exact h
  split
  case h_1 kske heq =>
    dsimp only
    split
    · exact h
    · intro e he i hi
      rcases mem_updateFirst he with he' | ⟨a, ha, rfl⟩
      · exact h e he' i hi
      · simp only at hi ⊢
        simp [h a ha i hi]
  case h_2 heq =>
    dsimp only
    split
    · exact h
    · intro e he i hi
      rcases List.mem_append.mp he with he' | he'
      · exact h e he' i hi
      · simp only [List.mem_singleton] at he'
        subst he'
        simp at hi

lemma no_orphan_enable_step (kvm : kvm_sdei_kvm) (vidx num : Nat) (b : Bool)
    (h : no_orphan_enable kvm) :
    no_orphan_enable (kvm_sdei_hypercall_enable kvm vidx num b).2 := by
  unfold kvm_sdei_hypercall_enable
  split
  · exact h
  split
  · exact h
  case h_2 kske heq =>
    have heq' : kvm.kvm_events.find? (fun e => e.state.num == num) =
        some kske := by
      simpa [kvm_sdei_find_kvm_event] using heq
    have hkmem : kske ∈ kvm.kvm_events := List.mem_of_find?_eq_some heq'
    split
    · exact h
    dsimp only
    split
    · exact h
    next hreg =>
    have hreg' : kske.state.registered (eventIndex kske.kse.type vidx) =
        true := by
      simpa [kvm_sdei_is_registered] using hreg
    split
    · exact h
    · intro e he i hi
      rcases mem_updateFirst_find heq' he with he' | rfl
      · exact h e he' i hi
      · simp only at hi ⊢
        by_cases hj : (i == eventIndex kske.kse.type vidx) = true
        · have hij : i = eventIndex kske.kse.type vidx := by simpa using hj
          subst hij
          exact hreg'
        · simp only [hj, if_false] at hi
          exact h kske hkmem i hi

lemma no_orphan_unregister_step (kvm : kvm_sdei_kvm) (vidx num : Nat)
    (h : no_orphan_enable kvm) :
    no_orphan_enable (kvm_sdei_hypercall_unregister kvm vidx num).2 := by
  unfold kvm_sdei_hypercall_unregister
  split
  · exact h
  split
  · exact h
  case h_2 kske heq =>
    have heq' : kvm.kvm_events.find? (fun e => e.state.num == num) =
        some kske := by
      simpa [kvm_sdei_find_kvm_event] using heq
    have hkmem : kske ∈ kvm.kvm_events := List.mem_of_find?_eq_some heq'
    split
    · exact h
    dsimp only
    split
    · exact h
    split
    · intro e he i hi
      exact h e (mem_of_eraseP he) i hi
    · intro e he i hi
      rcases mem_updateFirst_find heq' he with he' | rfl
      · exact h e he' i hi
      · simp only at hi ⊢
        by_cases hj : (i == eventIndex kske.kse.type vidx) = true
        · simp [hj] at hi
        · simp only [hj, if_false] at hi ⊢
          exact h kske hkmem i hi

lemma no_orphan_route_step (kvm : kvm_sdei_kvm) (num rm ra : Nat)
    (h : no_orphan_enable kvm) :
    no_orphan_enable (kvm_sdei_hypercall_route kvm num rm ra).2 := by
  unfold kvm_sdei_hypercall_route
  split
  · exact h
  split
  · exact h
  split
  · exact h
  case h_2 kske heq =>
    split
    · exact h
    split
    · exact h
    · intro e he i hi
      rcases mem_updateFirst he with he' | ⟨a, ha, rfl⟩
      · exact h e he' i hi
      · simp only at hi ⊢
        exact h a ha i hi

lemma no_orphan_reset_step (kvm : kvm_sdei_kvm) (priv : Bool)
    (h : no_orphan_enable kvm) :
    no_orphan_enable (kvm_sdei_hypercall_reset kvm priv).2 := by
  unfold kvm_sdei_hypercall_reset kvm_sdei_remove_kvm_events
  intro e he i hi
  exact h e (List.mem_of_mem_filter he) i hi

lemma no_orphan_complete_step (kvm : kvm_sdei_kvm) (vcpu : kvm_vcpu)
    (r : Bool) (h : no_orphan_enable kvm) :
    no_orphan_enable (kvm_sdei_hypercall_complete kvm vcpu r).2.1 := by
  unfold kvm_sdei_hypercall_complete
  dsimp only
  split
  · exact h
  · dsimp only
    intro e he i hi
    rcases mem_updateFirst he with he' | ⟨a, ha, rfl⟩
    · exact h e he' i hi
    · simp only at hi ⊢
      exact h a ha i hi

lemma no_orphan_sdei_step (op : GuestOp) (s : SdeiSys)
    (h : no_orphan_enable s.1) : no_orphan_enable (sdei_step op s).1 := by
  cases op with
  | registerCall vidx num e p rm ra =>
    exact no_orphan_register_step s.1 vidx num e p rm ra h
  | enableCall vidx num => exact no_orphan_enable_step s.1 vidx num true h
  | disableCall vidx num => exact no_orphan_enable_step s.1 vidx num false h
  | unregisterCall vidx num => exact no_orphan_unregister_step s.1 vidx num h
  | routeCall num rm ra => exact no_orphan_route_step s.1 num rm ra h
  | resetCall p => exact no_orphan_reset_step s.1 p h
  | maskCall m => exact h
  | completeCall r => exact no_orphan_complete_step s.1 s.2 r h
  | deliverStep => exact h

/-- A registration record with enabled bit 0 set but no registered bits,
    as supplied by a hostile or buggy management process. -/
def exBadState : kvm_sdei_kvm_event_state :=
  { num := KVM_SDEI_DEFAULT_NUM, refcount := 0,
    route_mode := 0, route_affinity := 0,
    entries := fun _ => 0, params := fun _ => 0,
    registered := fun _ => false,
    enabled := fun j => j == 0 }

/-- Claim C9 counterexample: the management-plane SET_KEVENT call
    installs the caller-supplied bitmaps verbatim, so it accepts
    (returns 0) a record whose index 0 is enabled but not registered,
    producing a reachable state that violates the invariant — the claim
    quantifies over administrative calls too. -/
theorem c9_set_kevent_orphan_counterexample :
    (kvm_sdei_set_kevent kvm_sdei_init_vm exBadState).1 = 0 ∧
    ((kvm_sdei_find_kvm_event (kvm_sdei_set_kevent kvm_sdei_init_vm
        exBadState).2 KVM_SDEI_DEFAULT_NUM).map
      (fun k => (k.state.enabled 0, k.state.registered 0))) =
      some (true, false) := by
  refine ⟨rfl, rfl⟩

/-- Claim C9, amended: after every sequence of guest-reachable
    operations — the registration-lifecycle hypercalls issued by any
    VCPU, routing changes, resets, mask toggles, completions and
    delivery steps — enabled implies registered in every registration
    record; only the administrative SET_KEVENT restore path can break
    the invariant. -/
theorem c9_guest_ops_preserve_no_orphan (ops : List GuestOp) (s : SdeiSys)
    (h : no_orphan_enable s.1) : no_orphan_enable (sdei_run ops s).1 := by
  induction ops generalizing s with
  | nil => exact h
  | cons op t ih => exact ih (sdei_step op s) (no_orphan_sdei_step op s h)

/-- A small concrete operation sequence: register and enable the default
    event, unmask, deliver it and complete it. -/
def exOps : List GuestOp :=
  [GuestOp.registerCall 0 KVM_SDEI_DEFAULT_NUM 0x1000 0xAA 0 0,
   GuestOp.enableCall 0 KVM_SDEI_DEFAULT_NUM,
   GuestOp.maskCall false,
   GuestOp.deliverStep,
   GuestOp.completeCall false]

/-- Witness for c9_guest_ops_preserve_no_orphan on exOps from the fresh
    VM and VCPU. -/
theorem c9_guest_ops_preserve_no_orphan_witness :
    no_orphan_enable kvm_sdei_init_vm ∧
    no_orphan_enable (sdei_run exOps (kvm_sdei_init_vm, exVcpuIdle)).1 :=
  ⟨fun e he => absurd he (List.not_mem_nil e),
   c9_guest_ops_preserve_no_orphan exOps (kvm_sdei_init_vm, exVcpuIdle)
     (fun e he => absurd he (List.not_mem_nil e))⟩

/-- Claim C10 (confirmed): an event number is accepted exactly when it
    is below 2^32 and its bits 23:22 equal 1, and every hypercall that
    takes an event number — register, enable, disable, unregister,
    status, get-info and routing-set — rejects any other number with
    InvalidParameters while leaving the VM state untouched, before any
    registration state is examined (the result is the same for every
    registration-table content). -/
theorem c10_event_num_validation (num vidx entry param rm ra info : Nat)
    (kvm : kvm_sdei_kvm) :
    (kvm_sdei_is_valid_event_num num = true ↔
       num < 4294967296 ∧ (num >>> 22) % 4 = 1) ∧
    (kvm_sdei_is_valid_event_num num = false →
       kvm_sdei_hypercall_register kvm vidx num entry param rm ra =
         (SDEI_INVALID_PARAMETERS, kvm) ∧
       kvm_sdei_hypercall_enable kvm vidx num true =
         (SDEI_INVALID_PARAMETERS, kvm) ∧
       kvm_sdei_hypercall_enable kvm vidx num false =
         (SDEI_INVALID_PARAMETERS, kvm) ∧
       kvm_sdei_hypercall_unregister kvm vidx num =
         (SDEI_INVALID_PARAMETERS, kvm) ∧
       kvm_sdei_hypercall_status kvm vidx num =
         some SDEI_INVALID_PARAMETERS ∧
       kvm_sdei_hypercall_info kvm num info = SDEI_INVALID_PARAMETERS ∧
       kvm_sdei_hypercall_route kvm num rm ra =
         (SDEI_INVALID_PARAMETERS, kvm)) := by
  have hand : (num >>> 22) &&& 3 = (num >>> 22) % 4 := by
    have h2 := Nat.and_pow_two_sub_one_eq_mod (num >>> 22) 2
    norm_num at h2
    exact h2
  have h32 : (num >>> 32 = 0) ↔ num < 4294967296 := by
    rw [Nat.shiftRight_eq_div_pow]
    exact Nat.div_eq_zero_iff (by norm_num)
  constructor
  · simp [kvm_sdei_is_valid_event_num, hand, ← h32]
  · intro h
    refine ⟨?_, ?_, ?_, ?_, ?_, ?_, ?_⟩ <;>
      simp [kvm_sdei_hypercall_register, kvm_sdei_hypercall_enable,
            kvm_sdei_hypercall_unregister, kvm_sdei_hypercall_status,
            kvm_sdei_hypercall_info, kvm_sdei_hypercall_route, h]

/-- Witness for c10_event_num_validation at number 0, the no-event
    sentinel: it is invalid and the register and status hypercalls
    refuse it on the fresh VM. -/
theorem c10_event_num_validation_witness :
    kvm_sdei_is_valid_event_num 0 = false ∧
    kvm_sdei_hypercall_register kvm_sdei_init_vm 0 0 0 0 0 0 =
      (SDEI_INVALID_PARAMETERS, kvm_sdei_init_vm) ∧
    kvm_sdei_hypercall_status kvm_sdei_init_vm 0 0 =
      some SDEI_INVALID_PARAMETERS :=
  ⟨rfl,
   ((c10_event_num_validation 0 0 0 0 0 0 0 kvm_sdei_init_vm).2 rfl).1,
   ((c10_event_num_validation 0 0 0 0 0 0 0
       kvm_sdei_init_vm).2 rfl).2.2.2.2.1⟩

end KvmSdei
